import Mathlib

/-!
Verification of the reconciliation engine of `src/ddns-update.py` (the
hardened variant of the ddns-update repository).

The Python source is shallowly embedded: pure computations become Lean
functions, the network / filesystem / SMTP environment becomes explicit
outcome parameters, and each stateful method becomes a function from an
explicit state value (plus its environment outcomes) to the new state
together with a trace of the observable effects (account-update calls,
persistence writes, notifications, health-checkpoint writes).

Modelling conventions, noted once here:
* Python strings are Lean `String` / `List Char`; the regex classes `\d`
  and `\s` are modelled over their ASCII ranges (`0`-`9` and the six
  ASCII whitespace characters that `str.strip` removes by default).
* `None` and "key absent from dict" are modelled with `Option`.
* Python truthiness of an optional string (`if not x`) is `truthyOpt`.
* Exceptions that the source catches locally are modelled by the value
  the handler produces; exceptions that escape a function are modelled
  by an explicit error result.
-/

set_option linter.unusedVariables false

namespace DdnsUpdate

/-! ### Python string primitives used by `ddns-update.py` -/

/-- ASCII decimal digit, the model of the regex class `\d`. -/
def isPyDigit (c : Char) : Bool :=
  '0' ≤ c && c ≤ '9'

/-- The six ASCII characters removed by Python `str.strip()` (and ignored
around the argument of `int(...)`). -/
def isPySpace (c : Char) : Bool :=
  c == ' ' || c == '\t' || c == '\n' || c == '\r' || c == '\x0b' || c == '\x0c'

/-- Python `str.strip()` on a character list: drop whitespace at both ends. -/
def pyStrip (l : List Char) : List Char :=
  ((l.dropWhile isPySpace).reverse.dropWhile isPySpace).reverse

/-- Python `str.split(sep)` with an explicit one-character separator:
splits on every occurrence and keeps empty pieces, so `"".split('.') = [""]`
and `"a..b".split('.') = ["a", "", "b"]`. -/
def pySplit (sep : Char) : List Char → List (List Char)
  | [] => [[]]
  | c :: cs =>
    if c = sep then [] :: pySplit sep cs
    else
      match pySplit sep cs with
      | [] => [[c]]
      | p :: ps => (c :: p) :: ps

/-- Decimal value of a digit list (most significant digit first). -/
def digitsVal (l : List Char) : Nat :=
  l.foldl (fun a c => 10 * a + (c.toNat - '0'.toNat)) 0

/-- Model of `int(s)` on a non-signed body: defined when the body is a non-empty
run of decimal digits. -/
def pyIntDigits (cs : List Char) : Option Nat :=
  if cs ≠ [] ∧ cs.all isPyDigit then some (digitsVal cs) else none

/-- Python `int(s)` for a string argument: surrounding whitespace is
stripped, an optional sign is consumed, and the rest must be a non-empty
digit run; `none` models the `ValueError` raised otherwise.  (Digit-group
underscores, which never occur at the call sites, are not modelled.) -/
def pyInt (l : List Char) : Option Int :=
  match pyStrip l with
  | '-' :: rest => (pyIntDigits rest).map (fun n => -(n : Int))
  | '+' :: rest => (pyIntDigits rest).map (fun n => (n : Int))
  | cs => (pyIntDigits cs).map (fun n => (n : Int))

/-! ### `is_valid_ipv4` (ddns-update.py lines 37, 46-54)

The source tests `IP_V4_PATTERN.match(ip)` where
`IP_V4_PATTERN = re.compile(r'^(\d{1,3}\.){3}\d{1,3}$')`, then splits the
original string on `'.'` and converts each piece with `int`.

Python regex semantics embedded here:
* `re.match` anchors at the start; the final `$` matches either at the
  end of the string or just before one newline that ends the string
  (there is no `re.MULTILINE` flag), so the pattern also accepts a
  well-formed address followed by exactly one `'\n'`.
* Since `'.'` is a literal in the pattern and `\d` cannot match `'.'`,
  the pattern matches a string exactly when, after discarding that one
  optional trailing newline, splitting on `'.'` yields exactly four
  pieces, each a run of one to three digits.
-/

/-- Discard a single trailing `'\n'` — the strings at which the pattern's
final `$` can match strictly before the end of the input. -/
def stripOneTrailingNewline (l : List Char) : List Char :=
  if l.getLast? = some '\n' then l.dropLast else l

/-- One to three decimal digits: a piece matched by `\d{1,3}`. -/
def isOctetDigits (p : List Char) : Bool :=
  decide (1 ≤ p.length) && decide (p.length ≤ 3) && p.all isPyDigit

/-- Whether `IP_V4_PATTERN.match ip` is truthy (see the semantics note above). -/
def ipPatternMatch (l : List Char) : Bool :=
  let parts := pySplit '.' (stripOneTrailingNewline l)
  parts.length == 4 && parts.all isOctetDigits

/-- Model of `is_valid_ipv4` (ddns-update.py lines 46-54): falsy or non-matching
input is rejected, then every dot-separated piece of the *original*
string must convert with `int` to a value in `[0, 255]`; an `int`
conversion error (`none`) makes the result `False` via the
`except ValueError` handler. -/
def is_valid_ipv4 (ip : String) : Bool :=
  if ip.data.isEmpty then false
  else if !ipPatternMatch ip.data then false
  else
    (pySplit '.' ip.data).all fun p =>
      match pyInt p with
      | some v => decide (0 ≤ v) && decide (v ≤ 255)
      | none => false

/-- The validity predicate exactly as claim C4 words it: the string is
four dot-separated integer components (non-empty digit runs) each with
value in `[0, 255]`, with no extraneous characters at all. -/
def claimedValidIPv4 (ip : String) : Bool :=
  let parts := pySplit '.' ip.data
  parts.length == 4 &&
    parts.all fun p => !p.isEmpty && p.all isPyDigit && decide (digitsVal p ≤ 255)

/-- The amended validity predicate: four dot-separated runs of one to
three digits, each of value at most 255, optionally followed by a single
trailing newline (accepted because the pattern's `$` matches before a
final `'\n'`). -/
def amendedValidIPv4 (ip : String) : Bool :=
  let parts := pySplit '.' (stripOneTrailingNewline ip.data)
  parts.length == 4 &&
    parts.all fun p => isOctetDigits p && decide (digitsVal p ≤ 255)

/-! ### Lemmas about the string primitives -/

theorem not_space_of_digit {c : Char} (h : isPyDigit c = true) : isPySpace c = false := by
  by_contra hc
  rw [Bool.not_eq_false] at hc
  simp only [isPySpace, Bool.or_eq_true, beq_iff_eq] at hc
  rcases hc with ((((rfl | rfl) | rfl) | rfl) | rfl) | rfl <;> exact absurd h (by decide)

theorem dropWhile_space_of_digits {l : List Char} (h : l.all isPyDigit = true) :
    l.dropWhile isPySpace = l := by
  cases l with
  | nil => rfl
  | cons c cs =>
    have hc : isPyDigit c = true := by
      simp only [List.all_cons, Bool.and_eq_true] at h
      exact h.1
    simp [List.dropWhile_cons, not_space_of_digit hc]

theorem pyStrip_digits {l : List Char} (h : l.all isPyDigit = true) : pyStrip l = l := by
  unfold pyStrip
  rw [dropWhile_space_of_digits h,
    dropWhile_space_of_digits (show l.reverse.all isPyDigit = true by simpa using h),
    List.reverse_reverse]

theorem pyStrip_digits_newline {l : List Char} (hne : l ≠ []) (h : l.all isPyDigit = true) :
    pyStrip (l ++ ['\n']) = l := by
  obtain ⟨c, cs, rfl⟩ := List.exists_cons_of_ne_nil hne
  have hc : isPyDigit c = true := by
    simp only [List.all_cons, Bool.and_eq_true] at h
    exact h.1
  unfold pyStrip
  rw [show ((c :: cs) ++ ['\n']).dropWhile isPySpace = (c :: cs) ++ ['\n'] by
    simp [List.dropWhile_cons, not_space_of_digit hc]]
  rw [show ((c :: cs) ++ ['\n']).reverse = '\n' :: (c :: cs).reverse by simp]
  rw [show ('\n' :: (c :: cs).reverse).dropWhile isPySpace = (c :: cs).reverse.dropWhile isPySpace
    by simp [List.dropWhile_cons, isPySpace]]
  rw [dropWhile_space_of_digits (show (c :: cs).reverse.all isPyDigit = true by
      rw [List.all_reverse]; exact h),
    List.reverse_reverse]

theorem pyInt_of_strip {m l : List Char} (hs : pyStrip m = l) (hne : l ≠ [])
    (h : l.all isPyDigit = true) : pyInt m = some ((digitsVal l : Int)) := by
  unfold pyInt
  rw [hs]
  obtain ⟨c, cs, rfl⟩ := List.exists_cons_of_ne_nil hne
  have hc : isPyDigit c = true := by
    simp only [List.all_cons, Bool.and_eq_true] at h
    exact h.1
  have hcm : c ≠ '-' := fun e => by subst e; exact absurd hc (by decide)
  have hcp : c ≠ '+' := fun e => by subst e; exact absurd hc (by decide)
  split
  · next rest heq => exact absurd (List.cons.inj heq).1 hcm
  · next rest heq => exact absurd (List.cons.inj heq).1 hcp
  · next cs' hm hp =>
    simp [pyIntDigits, h]

theorem pyInt_digits {l : List Char} (hne : l ≠ []) (h : l.all isPyDigit = true) :
    pyInt l = some ((digitsVal l : Int)) :=
  pyInt_of_strip (pyStrip_digits h) hne h

theorem pyInt_digits_newline {l : List Char} (hne : l ≠ []) (h : l.all isPyDigit = true) :
    pyInt (l ++ ['\n']) = some ((digitsVal l : Int)) :=
  pyInt_of_strip (pyStrip_digits_newline hne h) hne h

/-- Helper: append a character to the last piece of a split (the effect a
trailing non-separator character has on `pySplit`). -/
def appendLast (c : Char) : List (List Char) → List (List Char)
  | [] => [[c]]
  | [p] => [p ++ [c]]
  | p :: ps => p :: appendLast c ps

theorem pySplit_ne_nil (sep : Char) (l : List Char) : pySplit sep l ≠ [] := by
  cases l with
  | nil => simp [pySplit]
  | cons c cs =>
    unfold pySplit
    by_cases h : c = sep
    · simp [h]
    · simp only [h, if_false]
      cases hps : pySplit sep cs <;> simp

theorem appendLast_cons (c : Char) (p : List Char) {r : List (List Char)} (h : r ≠ []) :
    appendLast c (p :: r) = p :: appendLast c r := by
  cases r with
  | nil => exact absurd rfl h
  | cons q qs => rfl

theorem pySplit_append_last (sep c : Char) (hc : c ≠ sep) (l : List Char) :
    pySplit sep (l ++ [c]) = appendLast c (pySplit sep l) := by
  induction l with
  | nil => simp [pySplit, hc, appendLast]
  | cons a as ih =>
    show pySplit sep (a :: (as ++ [c])) = appendLast c (pySplit sep (a :: as))
    unfold pySplit
    by_cases ha : a = sep
    · simp only [ha, if_true, ih]
      exact (appendLast_cons c [] (pySplit_ne_nil sep as)).symm
    · simp only [ha, if_false, ih]
      obtain ⟨q, qs, hq⟩ := List.exists_cons_of_ne_nil (pySplit_ne_nil sep as)
      rw [hq]
      cases qs with
      | nil => simp [appendLast]
      | cons r rs => simp [appendLast]

theorem all_congr_mem {α : Type} {l : List α} {f g : α → Bool}
    (h : ∀ x ∈ l, f x = g x) : l.all f = l.all g := by
  induction l with
  | nil => rfl
  | cons a as ih =>
    simp only [List.all_cons, h a (by simp)]
    rw [ih fun x hx => h x (by simp [hx])]

theorem all_and_distrib {α : Type} (l : List α) (f g : α → Bool) :
    (l.all fun x => f x && g x) = (l.all f && l.all g) := by
  induction l with
  | nil => rfl
  | cons a as ih =>
    simp only [List.all_cons, ih]
    cases f a <;> cases g a <;> simp

/-! ### Claim C4: characterization of `is_valid_ipv4` -/

theorem octet_facts {p : List Char} (h : isOctetDigits p = true) :
    p ≠ [] ∧ p.all isPyDigit = true := by
  simp only [isOctetDigits, Bool.and_eq_true, decide_eq_true_eq] at h
  exact ⟨List.ne_nil_of_length_pos (by omega), h.2⟩

theorem octet_value_check {p : List Char} (h : isOctetDigits p = true) :
    (match pyInt p with
      | some v => decide (0 ≤ v) && decide (v ≤ 255)
      | none => false) = decide (digitsVal p ≤ 255) := by
  obtain ⟨hne, hd⟩ := octet_facts h
  rw [pyInt_digits hne hd]
  have h255 : ((digitsVal p : Int) ≤ 255) ↔ (digitsVal p ≤ 255) := by
    constructor <;> intro <;> omega
  simp [Int.natCast_nonneg, decide_eq_decide.mpr h255]

theorem octet_value_check_newline {p : List Char} (h : isOctetDigits p = true) :
    (match pyInt (p ++ ['\n']) with
      | some v => decide (0 ≤ v) && decide (v ≤ 255)
      | none => false) = decide (digitsVal p ≤ 255) := by
  obtain ⟨hne, hd⟩ := octet_facts h
  rw [pyInt_digits_newline hne hd]
  have h255 : ((digitsVal p : Int) ≤ 255) ↔ (digitsVal p ≤ 255) := by
    constructor <;> intro <;> omega
  simp [Int.natCast_nonneg, decide_eq_decide.mpr h255]

theorem ipPatternMatch_parts {l : List Char} (h : ipPatternMatch l = true) :
    (pySplit '.' (stripOneTrailingNewline l)).length = 4 ∧
      ∀ p ∈ pySplit '.' (stripOneTrailingNewline l), isOctetDigits p = true := by
  simp only [ipPatternMatch, Bool.and_eq_true, beq_iff_eq, List.all_eq_true] at h
  exact h

/-- Claim **C4** is corrected: `is_valid_ipv4` agrees with the *amended*
predicate on every string — four dot-separated runs of one to three
decimal digits, each of value at most 255, optionally followed by one
trailing newline.  (The claimed predicate differs: it rejects the
trailing newline the Python `$` anchor tolerates, and it accepts
components of four or more digits that the `\d{1,3}` bound rejects.) -/
theorem c4_is_valid_ipv4_characterization (ip : String) :
    is_valid_ipv4 ip = amendedValidIPv4 ip := by
  unfold is_valid_ipv4 amendedValidIPv4
  generalize ip.data = l
  by_cases hemp : l.isEmpty
  · have : l = [] := by cases l with | nil => rfl | cons a as => simp at hemp
    subst this
    rfl
  · rw [if_neg (by simp [hemp])]
    have hR : (let parts := pySplit '.' (stripOneTrailingNewline l);
          parts.length == 4 &&
            parts.all fun p => isOctetDigits p && decide (digitsVal p ≤ 255))
        = (ipPatternMatch l &&
            (pySplit '.' (stripOneTrailingNewline l)).all fun p =>
              decide (digitsVal p ≤ 255)) := by
      show (_ && _) = _
      unfold ipPatternMatch
      rw [all_and_distrib, ← Bool.and_assoc]
    rw [hR]
    cases hpm : ipPatternMatch l with
    | false => simp
    | true =>
      simp only [Bool.not_true, if_neg (by simp : ¬ (false = true)), Bool.true_and]
      obtain ⟨hlen, hall⟩ := ipPatternMatch_parts hpm
      by_cases hnl : l.getLast? = some '\n'
      · have hlne : l ≠ [] := by intro h; subst h; simp at hnl
        have hlast : l.getLast hlne = '\n' := by
          have := List.getLast?_eq_getLast l hlne
          rw [this] at hnl
          exact Option.some.inj hnl
        have hcore : l = l.dropLast ++ ['\n'] := by
          conv_lhs => rw [← List.dropLast_append_getLast hlne]
          rw [hlast]
        have hstrip : stripOneTrailingNewline l = l.dropLast := by
          unfold stripOneTrailingNewline
          rw [if_pos hnl]
        rw [hstrip] at hlen hall ⊢
        have hsplit : pySplit '.' l = appendLast '\n' (pySplit '.' l.dropLast) := by
          conv_lhs => rw [hcore]
          exact pySplit_append_last '.' '\n' (by decide) l.dropLast
        rcases hp : pySplit '.' l.dropLast with _ | ⟨a, _ | ⟨b, _ | ⟨c, _ | ⟨d, _ | rest⟩⟩⟩⟩ <;>
          rw [hp] at hlen <;> simp at hlen
        rw [hp] at hall
        rw [hsplit, hp]
        have ha := hall a (by simp)
        have hb := hall b (by simp)
        have hc := hall c (by simp)
        have hd := hall d (by simp)
        show ([a, b, c, d ++ ['\n']].all _) = _
        simp only [List.all_cons, List.all_nil]
        rw [octet_value_check ha, octet_value_check hb, octet_value_check hc,
          octet_value_check_newline hd]
      · have hstrip : stripOneTrailingNewline l = l := by
          unfold stripOneTrailingNewline
          rw [if_neg hnl]
        rw [hstrip] at hall ⊢
        exact all_congr_mem fun p hp => octet_value_check (hall p hp)

/-- Counterexample to C4 as stated: the code accepts `"1.2.3.4\n"`, which
has extraneous trailing whitespace (the regex `$` matches before a final
newline and Python `int` strips whitespace), and it rejects
`"0001.2.3.4"`, whose components are all integers in `[0, 255]` but whose
first component exceeds the `\d{1,3}` bound. -/
theorem c4_counterexample :
    is_valid_ipv4 "1.2.3.4\n" = true ∧ claimedValidIPv4 "1.2.3.4\n" = false ∧
      is_valid_ipv4 "0001.2.3.4" = false ∧ claimedValidIPv4 "0001.2.3.4" = true :=
  ⟨rfl, rfl, rfl, rfl⟩

/-! ### Account updater (`DDNSClient.update_ddns_for_user`, lines 424-499,
and `DDNSClient.update_all_users`, lines 501-543) -/

/-- Python truthiness of an `Optional[str]`: `None` and `''` are falsy. -/
def truthyOpt : Option String → Bool
  | none => false
  | some s => !s.data.isEmpty

/-- One configured account as loaded from the `users:` list of the
configuration document; `none` models an absent key, and the falsy empty
string is representable as `some ""`. -/
structure User where
  username : Option String
  password : Option String
deriving DecidableEq, Repr

/-- Environment outcome of the provider update request
`requests.get(self.api_url, params=..., timeout=REQUEST_TIMEOUT)`
followed by `response.raise_for_status()`:
* `resp text` — a 2xx response with body `text`;
* `timeout` — `requests.exceptions.Timeout`;
* `netError msg` — any other `requests.exceptions.RequestException`,
  including the `HTTPError` that `raise_for_status` raises on 4xx/5xx;
* `otherError msg` — any other exception. -/
inductive HttpResult where
  | resp (text : String)
  | timeout
  | netError (msg : String)
  | otherError (msg : String)
deriving DecidableEq, Repr

/-- Model of `s.startswith(pat)` on character lists. -/
def listStartsWith : List Char → List Char → Bool
  | _, [] => true
  | [], _ :: _ => false
  | c :: cs, d :: ds => c == d && listStartsWith cs ds

/-- Classification of the stripped provider response text by its prefix
(`update_ddns_for_user`, lines 458-487): the pair is
(success, error message), with an empty message on success. -/
def classify_response (t : String) : Bool × String :=
  if listStartsWith t.data "good".data then (true, "")
  else if listStartsWith t.data "nochg".data then (true, "")
  else if listStartsWith t.data "badauth".data then (false, "认证失败，请检查用户名和密码")
  else if listStartsWith t.data "911".data then (false, "服务器维护中，10分钟后重试")
  else if listStartsWith t.data "notfqdn".data then (false, "域名格式无效")
  else if listStartsWith t.data "nohost".data then (false, "域名未找到")
  else if listStartsWith t.data "dnserr".data then (false, "DNS服务器错误")
  else (false, "DDNS更新失败: " ++ t)

/-- Model of `DDNSClient.update_ddns_for_user` (lines 424-499): guards on a falsy
or invalid `current_ip`, then issues the request (its outcome is the
environment parameter `o`) and classifies the stripped response text;
every caught exception becomes a `(False, message)` value.  The username
and password only flow into the request parameters (the password after
an MD5 digest) and never affect the returned classification. -/
def update_ddns_for_user (username password : String) (current_ip : Option String)
    (o : HttpResult) : Bool × String :=
  if !truthyOpt current_ip then (false, "当前IP地址为空，无法更新")
  else if !is_valid_ipv4 (current_ip.getD "") then
    (false, "IP地址格式无效: " ++ current_ip.getD "")
  else
    match o with
    | .resp text => classify_response (String.mk (pyStrip text.data))
    | .timeout => (false, "请求超时")
    | .netError m => (false, "网络错误: " ++ m)
    | .otherError m => (false, "未知错误: " ++ m)

/-- The aggregation record built by `update_all_users` (lines 511-516):
`failed_users` pairs are (username, error message). -/
structure UpdateResult where
  all_success : Bool
  success_users : List String
  failed_users : List (String × String)
  skipped_count : Nat
deriving DecidableEq, Repr

/-- One iteration of the `for user in self.users` loop of
`update_all_users` (lines 522-538).  Each user is paired with the
environment outcome its update request would have. -/
def updateStep (current_ip : Option String) (r : UpdateResult) (u : User × HttpResult) :
    UpdateResult :=
  if !(truthyOpt u.1.username && truthyOpt u.1.password) then
    { r with skipped_count := r.skipped_count + 1 }
  else
    let un := u.1.username.getD ""
    let res := update_ddns_for_user un (u.1.password.getD "") current_ip u.2
    if res.1 then { r with success_users := r.success_users ++ [un] }
    else { r with failed_users := r.failed_users ++ [(un, res.2)] }

/-- Model of `DDNSClient.update_all_users` (lines 501-543). -/
def update_all_users (current_ip : Option String) (users : List (User × HttpResult)) :
    UpdateResult :=
  let r0 : UpdateResult := ⟨false, [], [], 0⟩
  if users.isEmpty then r0
  else
    let r := users.foldl (updateStep current_ip) r0
    let total_valid := users.length - r.skipped_count
    { r with all_success := decide (r.success_users.length = total_valid ∧ 0 < total_valid) }

/-! ### Claim C2: characterization of `update_all_users` -/

/-- A user is attempted exactly when both credentials are truthy
(present and non-empty); otherwise the loop counts it as skipped. -/
def attemptedUser (u : User) : Bool :=
  truthyOpt u.username && truthyOpt u.password

/-- Reference description of the collected successes: the usernames of
the attempted users whose update succeeded, in list order. -/
def specSuccessUsers (ip : Option String) (users : List (User × HttpResult)) : List String :=
  users.filterMap fun x =>
    if attemptedUser x.1 &&
        (update_ddns_for_user (x.1.username.getD "") (x.1.password.getD "") ip x.2).1 then
      some (x.1.username.getD "")
    else none

/-- Reference description of the collected failures with their reasons,
in list order. -/
def specFailedUsers (ip : Option String) (users : List (User × HttpResult)) :
    List (String × String) :=
  users.filterMap fun x =>
    let res := update_ddns_for_user (x.1.username.getD "") (x.1.password.getD "") ip x.2
    if attemptedUser x.1 && !res.1 then some (x.1.username.getD "", res.2) else none

/-- Reference count of the skipped users. -/
def specSkippedCount (users : List (User × HttpResult)) : Nat :=
  (users.filter fun x => !attemptedUser x.1).length

theorem foldl_updateStep (ip : Option String) (users : List (User × HttpResult))
    (r : UpdateResult) :
    users.foldl (updateStep ip) r =
      { r with
          success_users := r.success_users ++ specSuccessUsers ip users,
          failed_users := r.failed_users ++ specFailedUsers ip users,
          skipped_count := r.skipped_count + specSkippedCount users } := by
  induction users generalizing r with
  | nil => simp [specSuccessUsers, specFailedUsers, specSkippedCount]
  | cons u us ih =>
    rw [List.foldl_cons, ih]
    unfold updateStep specSuccessUsers specFailedUsers specSkippedCount
    by_cases hatt : attemptedUser u.1 = true
    · rw [show (truthyOpt u.1.username && truthyOpt u.1.password) = true from hatt]
      by_cases hres :
          (update_ddns_for_user (u.1.username.getD "") (u.1.password.getD "") ip u.2).1 = true
      · simp [specSuccessUsers, specFailedUsers, specSkippedCount, hatt, hres,
          List.filterMap_cons, List.filter_cons]
      · simp [specSuccessUsers, specFailedUsers, specSkippedCount, hatt, hres,
          List.filterMap_cons, List.filter_cons, Bool.not_eq_true] at *
    · rw [show (truthyOpt u.1.username && truthyOpt u.1.password) = false by
        simpa [attemptedUser] using hatt]
      simp [specSuccessUsers, specFailedUsers, specSkippedCount, hatt,
        List.filterMap_cons, List.filter_cons, Nat.add_comm, Nat.add_assoc, Nat.add_left_comm]

/-- Claim **C2** (confirmed): `update_all_users` skips exactly the users with a
missing (or empty) username or password, collects the successes and the
failures with their reasons of every attempted user in list order — so no
user's failure prevents attempting later users, each attempted user
lands in one of the two lists — and reports `all_success` exactly when
the number of successes equals the number of users minus the skipped
count and that quantity is positive. -/
theorem c2_update_all_users_characterization (ip : Option String)
    (users : List (User × HttpResult)) :
    (update_all_users ip users).skipped_count = specSkippedCount users ∧
    (update_all_users ip users).success_users = specSuccessUsers ip users ∧
    (update_all_users ip users).failed_users = specFailedUsers ip users ∧
    ((update_all_users ip users).all_success = true ↔
      ((update_all_users ip users).success_users.length =
          users.length - (update_all_users ip users).skipped_count ∧
        0 < users.length - (update_all_users ip users).skipped_count)) ∧
    (∀ x ∈ users, attemptedUser x.1 = true →
      (x.1.username.getD "") ∈ (update_all_users ip users).success_users ∨
        ∃ m, (x.1.username.getD "", m) ∈ (update_all_users ip users).failed_users) := by
  have hchar : (update_all_users ip users).skipped_count = specSkippedCount users ∧
      (update_all_users ip users).success_users = specSuccessUsers ip users ∧
      (update_all_users ip users).failed_users = specFailedUsers ip users ∧
      ((update_all_users ip users).all_success = true ↔
        ((update_all_users ip users).success_users.length =
            users.length - (update_all_users ip users).skipped_count ∧
          0 < users.length - (update_all_users ip users).skipped_count)) := by
    unfold update_all_users
    by_cases h : users.isEmpty
    · obtain rfl : users = [] := by
        cases users with
        | nil => rfl
        | cons a as => simp at h
      simp [specSuccessUsers, specFailedUsers, specSkippedCount]
    · rw [if_neg (by simp [h])]
      rw [foldl_updateStep]
      simp
  refine ⟨hchar.1, hchar.2.1, hchar.2.2.1, hchar.2.2.2, ?_⟩
  intro x hx hatt
  by_cases hres :
      (update_ddns_for_user (x.1.username.getD "") (x.1.password.getD "") ip x.2).1 = true
  · left
    rw [hchar.2.1]
    exact List.mem_filterMap.mpr ⟨x, hx, by simp [hatt, hres]⟩
  · right
    refine ⟨(update_ddns_for_user (x.1.username.getD "") (x.1.password.getD "") ip x.2).2, ?_⟩
    rw [hchar.2.2.1]
    exact List.mem_filterMap.mpr ⟨x, hx, by simp [hatt, hres]⟩

/-- Witness for C2 at a concrete run: three accounts where account B's
update returns `badauth`; the theorem places B in one of the two result
lists even though its update failed. -/
theorem c2_update_all_users_characterization_witness :
    "B" ∈ (update_all_users (some "5.6.7.8")
        [(⟨some "A", some "pa"⟩, .resp "good"),
         (⟨some "B", some "pb"⟩, .resp "badauth"),
         (⟨some "C", some "pc"⟩, .resp "nochg")]).success_users ∨
      ∃ m, ("B", m) ∈ (update_all_users (some "5.6.7.8")
        [(⟨some "A", some "pa"⟩, .resp "good"),
         (⟨some "B", some "pb"⟩, .resp "badauth"),
         (⟨some "C", some "pc"⟩, .resp "nochg")]).failed_users :=
  (c2_update_all_users_characterization (some "5.6.7.8")
      [(⟨some "A", some "pa"⟩, .resp "good"),
       (⟨some "B", some "pb"⟩, .resp "badauth"),
       (⟨some "C", some "pc"⟩, .resp "nochg")]).2.2.2.2
    (⟨some "B", some "pb"⟩, .resp "badauth") (by decide) (by decide)

/-! ### Claim C5: response classification of `update_ddns_for_user` -/

theorem listStartsWith_iff (p : List Char) : ∀ l, listStartsWith l p = true ↔ ∃ t, l = p ++ t := by
  induction p with
  | nil => intro l; simp [listStartsWith]
  | cons d ds ih =>
    intro l
    cases l with
    | nil => simp [listStartsWith]
    | cons c cs =>
      simp only [listStartsWith, Bool.and_eq_true, beq_iff_eq, ih, List.cons_append,
        List.cons.injEq]
      constructor
      · rintro ⟨rfl, t, rfl⟩; exact ⟨t, rfl, rfl⟩
      · rintro ⟨t, rfl, rfl⟩; exact ⟨rfl, t, rfl⟩

theorem listStartsWith_append (p t : List Char) : listStartsWith (p ++ t) p = true := by
  induction p with
  | nil => simp [listStartsWith]
  | cons d ds ih => simp [listStartsWith, ih]

theorem truthy_of_valid {ip : String} (h : is_valid_ipv4 ip = true) :
    truthyOpt (some ip) = true := by
  unfold truthyOpt
  cases hd : ip.data.isEmpty with
  | false =>
    cases hdata : ip.data with
    | nil => rw [hdata] at hd; exact absurd hd (by decide)
    | cons a as => simp [hdata]
  | true =>
    exfalso
    unfold is_valid_ipv4 at h
    rw [if_pos hd] at h
    exact absurd h (by decide)

/-- With a truthy, valid `current_ip`, the guards of `update_ddns_for_user`
pass and the result is determined by the request outcome alone. -/
theorem update_guards_pass {un pw ip : String} (h : is_valid_ipv4 ip = true) (o : HttpResult) :
    update_ddns_for_user un pw (some ip) o =
      match o with
      | .resp text => classify_response (String.mk (pyStrip text.data))
      | .timeout => (false, "请求超时")
      | .netError m => (false, "网络错误: " ++ m)
      | .otherError m => (false, "未知错误: " ++ m) := by
  unfold update_ddns_for_user
  simp [truthy_of_valid h, h]

theorem string_ne_of_head {s t : String} (h : s.data.head? ≠ t.data.head?) : s ≠ t :=
  fun e => h (congrArg (fun x => x.data.head?) e)

theorem string_append_head {p : String} {c : Char} {cs : List Char} (hp : p.data = c :: cs)
    (x : String) : (p ++ x).data.head? = some c := by
  rw [String.data_append, hp, List.cons_append]
  rfl

/-- Claim **C5** (confirmed): after the stripped provider response text is
classified by its prefix — `good`/`nochg` are successes, the five error
prefixes map to their fixed reasons, any other text is echoed verbatim
into an unclassified failure message — and a transport timeout or network
error produces its own failure reason distinct from all classification
messages; every outcome is a returned value, never a propagated
exception. -/
theorem c5_response_classification (un pw ip t m : String)
    (hip : is_valid_ipv4 ip = true) :
    (listStartsWith (pyStrip t.data) "good".data = true →
      update_ddns_for_user un pw (some ip) (.resp t) = (true, "")) ∧
    (listStartsWith (pyStrip t.data) "nochg".data = true →
      update_ddns_for_user un pw (some ip) (.resp t) = (true, "")) ∧
    (listStartsWith (pyStrip t.data) "badauth".data = true →
      update_ddns_for_user un pw (some ip) (.resp t) = (false, "认证失败，请检查用户名和密码")) ∧
    (listStartsWith (pyStrip t.data) "911".data = true →
      update_ddns_for_user un pw (some ip) (.resp t) = (false, "服务器维护中，10分钟后重试")) ∧
    (listStartsWith (pyStrip t.data) "notfqdn".data = true →
      update_ddns_for_user un pw (some ip) (.resp t) = (false, "域名格式无效")) ∧
    (listStartsWith (pyStrip t.data) "nohost".data = true →
      update_ddns_for_user un pw (some ip) (.resp t) = (false, "域名未找到")) ∧
    (listStartsWith (pyStrip t.data) "dnserr".data = true →
      update_ddns_for_user un pw (some ip) (.resp t) = (false, "DNS服务器错误")) ∧
    (listStartsWith (pyStrip t.data) "good".data = false →
      listStartsWith (pyStrip t.data) "nochg".data = false →
      listStartsWith (pyStrip t.data) "badauth".data = false →
      listStartsWith (pyStrip t.data) "911".data = false →
      listStartsWith (pyStrip t.data) "notfqdn".data = false →
      listStartsWith (pyStrip t.data) "nohost".data = false →
      listStartsWith (pyStrip t.data) "dnserr".data = false →
      update_ddns_for_user un pw (some ip) (.resp t) =
        (false, "DDNS更新失败: " ++ String.mk (pyStrip t.data))) ∧
    (update_ddns_for_user un pw (some ip) .timeout = (false, "请求超时")) ∧
    (update_ddns_for_user un pw (some ip) (.netError m) = (false, "网络错误: " ++ m)) ∧
    ("请求超时" ∉ ["认证失败，请检查用户名和密码", "服务器维护中，10分钟后重试", "域名格式无效",
      "域名未找到", "DNS服务器错误", "DDNS更新失败: " ++ String.mk (pyStrip t.data)]) ∧
    (("网络错误: " ++ m) ∉ ["认证失败，请检查用户名和密码", "服务器维护中，10分钟后重试", "域名格式无效",
      "域名未找到", "DNS服务器错误", "DDNS更新失败: " ++ String.mk (pyStrip t.data)]) ∧
    ("网络错误: " ++ m ≠ "请求超时") := by
  have hd : ∀ l : List Char, (String.mk l).data = l := fun l => rfl
  refine ⟨?_, ?_, ?_, ?_, ?_, ?_, ?_, ?_, ?_, ?_, ?_, ?_, ?_⟩
  · intro h
    obtain ⟨tl, htl⟩ := (listStartsWith_iff _ _).mp h
    rw [update_guards_pass hip]
    simp only [classify_response, hd, htl]
    rw [listStartsWith_append]
    simp
  · intro h
    obtain ⟨tl, htl⟩ := (listStartsWith_iff _ _).mp h
    rw [update_guards_pass hip]
    simp only [classify_response, hd, htl]
    rw [show listStartsWith ("nochg".data ++ tl) "good".data = false from rfl,
      listStartsWith_append]
    simp
  · intro h
    obtain ⟨tl, htl⟩ := (listStartsWith_iff _ _).mp h
    rw [update_guards_pass hip]
    simp only [classify_response, hd, htl]
    rw [show listStartsWith ("badauth".data ++ tl) "good".data = false from rfl,
      show listStartsWith ("badauth".data ++ tl) "nochg".data = false from rfl,
      listStartsWith_append]
    simp
  · intro h
    obtain ⟨tl, htl⟩ := (listStartsWith_iff _ _).mp h
    rw [update_guards_pass hip]
    simp only [classify_response, hd, htl]
    rw [show listStartsWith ("911".data ++ tl) "good".data = false from rfl,
      show listStartsWith ("911".data ++ tl) "nochg".data = false from rfl,
      show listStartsWith ("911".data ++ tl) "badauth".data = false from rfl,
      listStartsWith_append]
    simp
  · intro h
    obtain ⟨tl, htl⟩ := (listStartsWith_iff _ _).mp h
    rw [update_guards_pass hip]
    simp only [classify_response, hd, htl]
    rw [show listStartsWith ("notfqdn".data ++ tl) "good".data = false from rfl,
      show listStartsWith ("notfqdn".data ++ tl) "nochg".data = false from rfl,
      show listStartsWith ("notfqdn".data ++ tl) "badauth".data = false from rfl,
      show listStartsWith ("notfqdn".data ++ tl) "911".data = false from rfl,
      listStartsWith_append]
    simp
  · intro h
    obtain ⟨tl, htl⟩ := (listStartsWith_iff _ _).mp h
    rw [update_guards_pass hip]
    simp only [classify_response, hd, htl]
    rw [show listStartsWith ("nohost".data ++ tl) "good".data = false from rfl,
      show listStartsWith ("nohost".data ++ tl) "nochg".data = false from rfl,
      show listStartsWith ("nohost".data ++ tl) "badauth".data = false from rfl,
      show listStartsWith ("nohost".data ++ tl) "911".data = false from rfl,
      show listStartsWith ("nohost".data ++ tl) "notfqdn".data = false from rfl,
      listStartsWith_append]
    simp
  · intro h
    obtain ⟨tl, htl⟩ := (listStartsWith_iff _ _).mp h
    rw [update_guards_pass hip]
    simp only [classify_response, hd, htl]
    rw [show listStartsWith ("dnserr".data ++ tl) "good".data = false from rfl,
      show listStartsWith ("dnserr".data ++ tl) "nochg".data = false from rfl,
      show listStartsWith ("dnserr".data ++ tl) "badauth".data = false from rfl,
      show listStartsWith ("dnserr".data ++ tl) "911".data = false from rfl,
      show listStartsWith ("dnserr".data ++ tl) "notfqdn".data = false from rfl,
      show listStartsWith ("dnserr".data ++ tl) "nohost".data = false from rfl,
      listStartsWith_append]
    simp
  · intro h1 h2 h3 h4 h5 h6 h7
    rw [update_guards_pass hip]
    simp only [classify_response, hd, h1, h2, h3, h4, h5, h6, h7]
    simp
  · rw [update_guards_pass hip]
  · rw [update_guards_pass hip]
  · simp only [List.mem_cons, List.not_mem_nil, or_false, not_or]
    refine ⟨by decide, by decide, by decide, by decide, by decide, ?_⟩
    refine string_ne_of_head ?_
    rw [string_append_head rfl]
    decide
  · simp only [List.mem_cons, List.not_mem_nil, or_false, not_or]
    refine ⟨?_, ?_, ?_, ?_, ?_, ?_⟩ <;> refine string_ne_of_head ?_ <;>
      rw [string_append_head rfl] <;>
      first
        | decide
        | (rw [string_append_head rfl]; decide)
  · refine string_ne_of_head ?_
    rw [string_append_head rfl]
    decide

/-- Witness for C5 at a concrete input: a `badauth` response against a
valid resolved address yields the authentication-failure reason. -/
theorem c5_response_classification_witness :
    update_ddns_for_user "A" "pw" (some "5.6.7.8") (.resp "badauth") =
      (false, "认证失败，请检查用户名和密码") :=
  (c5_response_classification "A" "pw" "5.6.7.8" "badauth" "boom" (by decide)).2.2.1 (by decide)

/-! ### IP resolver (`DDNSClient.get_public_ip`, lines 384-418)

Each entry of `IP_CHECK_SERVICES` is queried in order with
`requests.get(service['url'], timeout=REQUEST_TIMEOUT)` and its body is
matched against the service's extraction pattern.  The network response
and the regex extraction are the environment of one service query: -/

/-- Outcome of querying one detection service:
* `resp status extracted` — an HTTP response with the given status code;
  `extracted` is `match.group(1)` of `re.search(pattern, text.strip())`,
  or `none` when the pattern does not match;
* `timeout` — `requests.exceptions.Timeout`;
* `reqError` — any other `requests.exceptions.RequestException`;
* `otherError` — any other exception.  All three exception outcomes are
  caught by the loop's handlers and only logged. -/
inductive ServiceOutcome where
  | resp (status : Nat) (extracted : Option String)
  | timeout
  | reqError
  | otherError
deriving DecidableEq, Repr

/-- The value one loop iteration of `get_public_ip` would accept: the
extracted group of a 200 response, provided it passes `is_valid_ipv4`;
`none` means the loop falls through to the next service. -/
def ipStep : ServiceOutcome → Option String
  | .resp status extracted =>
    if status == 200 then
      match extracted with
      | some ip => if is_valid_ipv4 ip then some ip else none
      | none => none
    else none
  | .timeout => none
  | .reqError => none
  | .otherError => none

/-- Result of `get_public_ip`: `success` is the returned boolean,
`current_ip` the (possibly unchanged) `self.current_ip` field, `queried`
the number of services actually contacted, and `notified` whether the
all-services-failed notification email was sent. -/
structure GetIpResult where
  success : Bool
  current_ip : Option String
  queried : Nat
  notified : Bool
deriving DecidableEq, Repr

/-- Model of `DDNSClient.get_public_ip` (lines 384-418) over the list of per-service
outcomes (one per entry of `IP_CHECK_SERVICES`, in order): stops at the
first service whose extracted value validates, otherwise exhausts the
list, sends the failure notification and returns `False` leaving
`self.current_ip` at its previous value `old`. -/
def get_public_ip (old : Option String) : List ServiceOutcome → GetIpResult
  | [] => ⟨false, old, 0, true⟩
  | o :: os =>
    match ipStep o with
    | some ip => ⟨true, some ip, 1, false⟩
    | none =>
      let r := get_public_ip old os
      ⟨r.success, r.current_ip, r.queried + 1, r.notified⟩

theorem ipStep_valid {o : ServiceOutcome} {ip : String} (h : ipStep o = some ip) :
    is_valid_ipv4 ip = true := by
  cases o with
  | resp status extracted =>
    cases extracted with
    | none => simp [ipStep] at h
    | some ip' =>
      simp only [ipStep] at h
      split at h
      · split at h
        · next hv => cases h; exact hv
        · simp at h
      · simp at h
  | timeout => simp [ipStep] at h
  | reqError => simp [ipStep] at h
  | otherError => simp [ipStep] at h

theorem get_public_ip_success_shape (old : Option String) (svc : List ServiceOutcome)
    (h : (get_public_ip old svc).success = true) :
    ∃ ip, (get_public_ip old svc).current_ip = some ip ∧ is_valid_ipv4 ip = true ∧
      (get_public_ip old svc).notified = false := by
  induction svc with
  | nil => simp [get_public_ip] at h
  | cons o os ih =>
    unfold get_public_ip at h ⊢
    cases hs : ipStep o with
    | some ip => exact ⟨ip, by simp [hs], ipStep_valid hs, by simp [hs]⟩
    | none =>
      rw [hs] at h
      simp only [hs]
      exact ih (by simpa using h)

/-- Claim **C3** (confirmed): the resolver queries the services strictly in
order — when the services before position `i` all fall through and
service `i` extracts a validated address, the resolver returns that
address having queried exactly `i + 1` services (no later service is
queried); it reports failure exactly when every service falls through
(timeout, error, non-match, non-200 status, or invalid address), in
which case it has queried all services, sent the failure notification,
and left the cached current address unchanged; on success no failure
notification is sent. -/
theorem c3_get_public_ip_fallback (old : Option String) (svc : List ServiceOutcome) :
    (∀ pre o post ip, svc = pre ++ o :: post →
      (∀ p ∈ pre, ipStep p = none) → ipStep o = some ip →
      get_public_ip old svc = ⟨true, some ip, pre.length + 1, false⟩) ∧
    ((get_public_ip old svc).success = false ↔ ∀ o ∈ svc, ipStep o = none) ∧
    ((get_public_ip old svc).success = false →
      get_public_ip old svc = ⟨false, old, svc.length, true⟩) := by
  refine ⟨?_, ?_, ?_⟩
  · intro pre o post ip hsvc hpre hstep
    subst hsvc
    induction pre with
    | nil => simp [get_public_ip, hstep]
    | cons p ps ih =>
      have hp : ipStep p = none := hpre p (by simp)
      simp only [List.cons_append, get_public_ip, hp, List.append_eq]
      rw [ih fun q hq => hpre q (by simp [hq])]
      simp
  · induction svc with
    | nil => simp [get_public_ip]
    | cons o os ih =>
      unfold get_public_ip
      cases hs : ipStep o with
      | some ip => simp [hs]
      | none => simpa [hs] using ih
  · induction svc with
    | nil => intro _; rfl
    | cons o os ih =>
      intro h
      unfold get_public_ip at h ⊢
      cases hs : ipStep o with
      | some ip => rw [hs] at h; simp at h
      | none =>
        rw [hs] at h
        simp only [hs]
        rw [ih (by simpa using h)]
        simp

/-- Witness for C3 at the spec's own scenario: service 1 times out,
service 2 succeeds with a validated address, service 3 is never queried
(`queried = 2`); and a run in which every service fails reports failure
with a notification after querying all three services. -/
theorem c3_get_public_ip_fallback_witness :
    get_public_ip (some "1.2.3.4")
        [.timeout, .resp 200 (some "5.6.7.8"), .resp 200 (some "9.9.9.9")] =
      ⟨true, some "5.6.7.8", 2, false⟩ ∧
    get_public_ip (some "1.2.3.4") [.timeout, .resp 500 (some "5.6.7.8"), .reqError] =
      ⟨false, some "1.2.3.4", 3, true⟩ :=
  ⟨(c3_get_public_ip_fallback (some "1.2.3.4")
        [.timeout, .resp 200 (some "5.6.7.8"), .resp 200 (some "9.9.9.9")]).1
      [.timeout] (.resp 200 (some "5.6.7.8")) [.resp 200 (some "9.9.9.9")] "5.6.7.8"
      rfl (by decide) (by decide),
    (c3_get_public_ip_fallback (some "1.2.3.4")
        [.timeout, .resp 500 (some "5.6.7.8"), .reqError]).2.2 (by decide)⟩

/-! ### Notifier (`DDNSClient.send_email`, lines 323-382) -/

/-- The `smtp` section of the configuration document; each field is
`some` exactly when the key is present. -/
structure SmtpConfig where
  server : Option String
  port : Option Nat
  username : Option String
  password : Option String
  sender : Option String
  receiver : Option String
  use_tls : Option Bool
deriving DecidableEq, Repr

/-- Environment outcome of an attempted SMTP delivery; every non-`delivered`
constructor corresponds to one of the `except` clauses of `send_email`
(authentication, connect, other SMTP error, socket timeout/error, any
other exception), all of which are caught and only logged. -/
inductive SmtpOutcome where
  | delivered
  | authError
  | connectError
  | smtpError
  | socketError
  | otherError
deriving DecidableEq, Repr

/-- Whether the required keys are present; `config.get('smtp', {})` is falsy when the section is absent or
empty; both are modelled by `none`. -/
def smtp_fields_ok (c : SmtpConfig) : Bool :=
  c.server.isSome && c.port.isSome && c.username.isSome && c.password.isSome &&
    c.sender.isSome && c.receiver.isSome

/-- Model of `DDNSClient.send_email` (lines 323-382): returns
(result, delivery attempted).  A falsy `smtp` section or a missing
required field returns `False` before any connection is made; any
exception during delivery is caught and becomes `False`.  The subject
and content only flow into the message body and never affect the
returned value, so they are not parameters of the model. -/
def send_email (smtp : Option SmtpConfig) (outcome : SmtpOutcome) : Bool × Bool :=
  match smtp with
  | none => (false, false)
  | some c =>
    if !smtp_fields_ok c then (false, false)
    else
      match outcome with
      | .delivered => (true, true)
      | _ => (false, true)

/-! ### Reconciliation loop (`DDNSClient.run_once`, lines 545-634) -/

/-- The mutable client fields a cycle reads and writes. -/
structure ClientState where
  cached_ip : Option String
  current_ip : Option String
deriving DecidableEq, Repr

/-- Observable effects of one cycle: number of per-account update
requests issued, number of `save_config` attempts, number of
`send_email` invocations, and health-checkpoint writes. -/
structure Trace where
  updateCalls : Nat
  saveCalls : Nat
  emails : Nat
  healthWrites : Nat
deriving DecidableEq, Repr

/-- Model of `DDNSClient.run_once` (lines 545-634), parameterized by the
environment of the cycle: the per-service resolution outcomes `svc`, the
configured users paired with their per-account request outcomes, and
whether `save_config` and `send_email` would succeed.  `saveOk` is
deliberately unused: the `try/except` around `save_config` (lines
628-631) only logs a persistence failure, and the `send_email` result
(lines 620-623) is also only logged — neither affects the state or the
returned boolean.  The result is (new state, trace, returned boolean). -/
def run_once (st : ClientState) (users : List (User × HttpResult))
    (svc : List ServiceOutcome) (saveOk emailOk : Bool) : ClientState × Trace × Bool :=
  -- write_health_check() at entry: 1 health write; each exit path writes again.
  let g := get_public_ip st.current_ip svc
  let resolveEmails := if g.notified then 1 else 0
  if !g.success then
    ({ st with current_ip := g.current_ip }, ⟨0, 0, resolveEmails, 2⟩, false)
  else
    let st₁ : ClientState := { st with current_ip := g.current_ip }
    if !truthyOpt st₁.current_ip || !is_valid_ipv4 (st₁.current_ip.getD "") then
      (st₁, ⟨0, 0, resolveEmails, 2⟩, false)
    else if st₁.current_ip == st₁.cached_ip then
      (st₁, ⟨0, 0, resolveEmails, 2⟩, true)
    else
      let ur := update_all_users st₁.current_ip users
      let attempted := ur.success_users.length + ur.failed_users.length
      if ur.all_success then
        ({ st₁ with cached_ip := st₁.current_ip }, ⟨attempted, 1, resolveEmails + 1, 2⟩, true)
      else
        (st₁, ⟨attempted, 0, resolveEmails + 1, 2⟩, false)

/-! ### Claim C1: skipped cycles and idempotence -/

/-- When resolution succeeds and the resolved address equals the cached
one, the cycle takes the `Skipped` exit: no update calls, no save, no
notification, two health writes, result `True`, cached address
unchanged. -/
theorem run_once_skip_eq (st : ClientState) (users : List (User × HttpResult))
    (svc : List ServiceOutcome) (saveOk emailOk : Bool)
    (h₁ : (get_public_ip st.current_ip svc).success = true)
    (h₂ : (get_public_ip st.current_ip svc).current_ip = st.cached_ip) :
    run_once st users svc saveOk emailOk =
      ({ st with current_ip := (get_public_ip st.current_ip svc).current_ip },
        ⟨0, 0, 0, 2⟩, true) := by
  obtain ⟨ip, hip, hval, hnot⟩ := get_public_ip_success_shape st.current_ip svc h₁
  have hcache : st.cached_ip = some ip := by rw [← h₂, hip]
  simp [run_once, h₁, hnot, hip, hcache, truthy_of_valid hval, hval]

/-- A cycle that returns `True` leaves the cached address equal to the
resolved current address (either the skip comparison held, or the update
path succeeded and assigned it). -/
theorem run_once_true_cached (st : ClientState) (users : List (User × HttpResult))
    (svc : List ServiceOutcome) (saveOk emailOk : Bool) (st₁ : ClientState) (t₁ : Trace)
    (h : run_once st users svc saveOk emailOk = (st₁, t₁, true)) :
    st₁.cached_ip = st₁.current_ip := by
  simp only [run_once] at h
  split at h
  · exact absurd (congrArg (fun x => x.2.2) h) (by simp)
  · split at h
    · exact absurd (congrArg (fun x => x.2.2) h) (by simp)
    · split at h
      · next hc =>
        injection h with h1 h23
        subst h1
        exact (beq_iff_eq.mp hc).symm
      · split at h
        · injection h with h1 h23
          subst h1
          rfl
        · exact absurd (congrArg (fun x => x.2.2) h) (by simp)

/-- Claim **C1** (confirmed): (a) whenever resolution succeeds and returns the
cached address, the cycle performs zero account-update calls, zero
persistence writes and sends no notification, returns `True` and keeps
the cached address; hence (b) after any cycle that returned `True`, a
second cycle whose resolution returns the same (unchanged) address again
performs zero account-update calls and zero persistence writes and
leaves the state fixed. -/
theorem c1_skip_and_idempotence :
    (∀ st users svc saveOk emailOk,
      (get_public_ip st.current_ip svc).success = true →
      (get_public_ip st.current_ip svc).current_ip = st.cached_ip →
      run_once st users svc saveOk emailOk =
        ({ st with current_ip := (get_public_ip st.current_ip svc).current_ip },
          ⟨0, 0, 0, 2⟩, true)) ∧
    (∀ st users svc saveOk emailOk st₁ t₁ users₂ svc₂ saveOk₂ emailOk₂,
      run_once st users svc saveOk emailOk = (st₁, t₁, true) →
      (get_public_ip st₁.current_ip svc₂).success = true →
      (get_public_ip st₁.current_ip svc₂).current_ip = st₁.current_ip →
      run_once st₁ users₂ svc₂ saveOk₂ emailOk₂ = (st₁, ⟨0, 0, 0, 2⟩, true)) := by
  constructor
  · intro st users svc saveOk emailOk h₁ h₂
    exact run_once_skip_eq st users svc saveOk emailOk h₁ h₂
  · intro st users svc saveOk emailOk st₁ t₁ users₂ svc₂ saveOk₂ emailOk₂ h h₁ h₂
    have hc := run_once_true_cached st users svc saveOk emailOk st₁ t₁ h
    have hskip := run_once_skip_eq st₁ users₂ svc₂ saveOk₂ emailOk₂ h₁ (by rw [h₂, ← hc])
    rw [hskip, h₂]

/-- Witness for C1: cached `1.2.3.4`, resolver returns `1.2.3.4` — the
cycle ends `Skipped` with no account calls, no persistence, no
notification, and the cached address unchanged. -/
theorem c1_skip_and_idempotence_witness :
    run_once ⟨some "1.2.3.4", none⟩ [] [.resp 200 (some "1.2.3.4")] true true =
      (⟨some "1.2.3.4", some "1.2.3.4"⟩, ⟨0, 0, 0, 2⟩, true) :=
  c1_skip_and_idempotence.1 ⟨some "1.2.3.4", none⟩ [] [.resp 200 (some "1.2.3.4")]
    true true rfl rfl

/-! ### Claim C6: persistence failure does not revert the update -/

/-- Claim **C6** (confirmed): in a cycle where resolution succeeds with a
changed address and every account update succeeds, running with a
failing `save_config` (`saveOk = false`) still assigns the newly
resolved address to the cached field, attempts exactly one persistence
write, and returns `True` — the in-memory value is not reverted and the
cycle still reports success. -/
theorem c6_save_failure_keeps_new_ip (st : ClientState) (users : List (User × HttpResult))
    (svc : List ServiceOutcome) (emailOk : Bool)
    (h₁ : (get_public_ip st.current_ip svc).success = true)
    (h₂ : (get_public_ip st.current_ip svc).current_ip ≠ st.cached_ip)
    (h₃ : (update_all_users (get_public_ip st.current_ip svc).current_ip users).all_success
      = true) :
    run_once st users svc false emailOk =
      (⟨(get_public_ip st.current_ip svc).current_ip,
          (get_public_ip st.current_ip svc).current_ip⟩,
        ⟨(update_all_users (get_public_ip st.current_ip svc).current_ip users).success_users.length
            + (update_all_users (get_public_ip st.current_ip svc).current_ip
                users).failed_users.length,
          1, 1, 2⟩, true) := by
  obtain ⟨ip, hip, hval, hnot⟩ := get_public_ip_success_shape st.current_ip svc h₁
  have hne : (some ip == st.cached_ip) = false := by
    rw [hip] at h₂
    exact beq_eq_false_iff_ne.mpr h₂
  rw [hip] at h₃
  simp [run_once, h₁, hnot, hip, hne, truthy_of_valid hval, hval, h₃]

/-- Witness for C6: one account succeeding with `good`, resolution
moving from `0.0.0.0` to `5.6.7.8`, and a failing save: the cached
address ends at `5.6.7.8` and the cycle returns `True`. -/
theorem c6_save_failure_keeps_new_ip_witness :
    run_once ⟨some "0.0.0.0", none⟩ [(⟨some "A", some "p"⟩, .resp "good")]
        [.resp 200 (some "5.6.7.8")] false true =
      (⟨some "5.6.7.8", some "5.6.7.8"⟩, ⟨1, 1, 1, 2⟩, true) :=
  c6_save_failure_keeps_new_ip ⟨some "0.0.0.0", none⟩ [(⟨some "A", some "p"⟩, .resp "good")]
    [.resp 200 (some "5.6.7.8")] true rfl (by decide) rfl

/-! ### Claim C10: `send_email` never aborts a cycle -/

/-- Claim **C10** (confirmed): an absent (or empty) `smtp` section, or one
missing any required field, makes `send_email` return `False` without
attempting delivery; with a complete configuration every exceptional
delivery outcome is caught and returns `False` (success is returned only
for an actual delivery); and the `send_email` result has no effect on a
reconciliation cycle's state, trace or returned boolean. -/
theorem c10_send_email_never_raises (c : SmtpConfig) (outcome : SmtpOutcome) :
    (send_email none outcome = (false, false)) ∧
    (smtp_fields_ok c = false → send_email (some c) outcome = (false, false)) ∧
    (outcome ≠ SmtpOutcome.delivered → (send_email (some c) outcome).1 = false) ∧
    ((send_email (some c) outcome).1 = true ↔
      (smtp_fields_ok c = true ∧ outcome = SmtpOutcome.delivered)) ∧
    (∀ st users svc saveOk,
      run_once st users svc saveOk true = run_once st users svc saveOk false) := by
  refine ⟨rfl, ?_, ?_, ?_, fun _ _ _ _ => rfl⟩
  · intro h
    simp [send_email, h]
  · intro h
    cases hf : smtp_fields_ok c <;> cases outcome <;> simp_all [send_email]
  · cases hf : smtp_fields_ok c <;> cases outcome <;> simp [send_email, hf]

/-- Witness for C10: a configuration whose `port` key is absent returns
`False` without attempting delivery, even when the transport would have
delivered. -/
theorem c10_send_email_never_raises_witness :
    send_email (some ⟨some "smtp.example", none, some "u", some "p", some "f", some "r",
      some true⟩) .delivered = (false, false) :=
  (c10_send_email_never_raises
    ⟨some "smtp.example", none, some "u", some "p", some "f", some "r", some true⟩
    .delivered).2.1 (by decide)

/-! ### Claim C8: the cached-address invariant
(`DDNSClient._validate_config` lines 210-219, `load_config` line 248) -/

/-- The invariant claimed for the cached address: the sentinel
`"0.0.0.0"` or a valid IPv4 string. -/
def cachedInvariant : Option String → Bool
  | none => false
  | some s => s == "0.0.0.0" || is_valid_ipv4 s

/-- Model of `self.cached_ip = self.ddns_config.get('last_ip', '0.0.0.0')`
(line 248): an absent key defaults to the sentinel; a present key keeps
its value, which may be `None` (a YAML null) or any string. -/
def load_cached_ip (raw : Option (Option String)) : Option String :=
  match raw with
  | none => some "0.0.0.0"
  | some v => v

/-- The cached-address portion of `_validate_config` (lines 210-219):
only a *truthy* value different from the sentinel is format-checked; an
invalid one is coerced to the sentinel and `save_config` is called (the
boolean records that call).  A falsy value (`None` or `""`) skips the
check entirely. -/
def validate_cached_ip (cached : Option String) : Option String × Bool :=
  if truthyOpt cached && !(cached.getD "" == "0.0.0.0") then
    if !is_valid_ipv4 (cached.getD "") then (some "0.0.0.0", true) else (cached, false)
  else (cached, false)

/-- Counterexample to C8 as stated: a configuration whose `last_ip` is
the empty string survives load and validation unchanged (the guard
`if self.cached_ip and ...` skips falsy values), yet the empty string is
neither the sentinel nor a valid IPv4 address. -/
theorem c8_counterexample :
    validate_cached_ip (load_cached_ip (some (some ""))) = (some "", false) ∧
      cachedInvariant (some "") = false :=
  ⟨rfl, rfl⟩

/-- Claim **C8** (corrected): a *truthy* loaded cached value is sentinel-or-valid
after validation; whenever validation changes the cached value it coerces
it to the sentinel and calls `save_config`; and every reconciliation
cycle preserves the invariant (the update path only ever assigns an
address that passed `is_valid_ipv4`).  A falsy loaded value (`None` or
`""`) is left as-is by validation and can violate the invariant. -/
theorem c8_cached_ip_invariant :
    (∀ cached, truthyOpt cached = true →
      cachedInvariant (validate_cached_ip cached).1 = true) ∧
    (∀ cached, (validate_cached_ip cached).1 ≠ cached →
      validate_cached_ip cached = (some "0.0.0.0", true)) ∧
    (∀ st users svc saveOk emailOk, cachedInvariant st.cached_ip = true →
      cachedInvariant (run_once st users svc saveOk emailOk).1.cached_ip = true) := by
  refine ⟨?_, ?_, ?_⟩
  · intro cached htr
    cases cached with
    | none => simp [truthyOpt] at htr
    | some s =>
      unfold validate_cached_ip
      by_cases hsent : (s == "0.0.0.0") = true
      · simp [hsent, cachedInvariant]
      · rw [show (truthyOpt (some s) && !((some s).getD "" == "0.0.0.0")) = true by
          simp [htr, Option.getD]; simpa using hsent]
        cases hv : is_valid_ipv4 s with
        | true => simp [hv, cachedInvariant]
        | false => simp [hv, cachedInvariant]
  · intro cached hne
    unfold validate_cached_ip at hne ⊢
    split at hne
    · next hcond =>
      rw [if_pos hcond]
      split at hne
      · next hval => rw [if_pos hval]
      · next hval => exact absurd rfl hne
    · next hcond => exact absurd rfl hne
  · intro st users svc saveOk emailOk hinv
    simp only [run_once]
    split
    · exact hinv
    · split
      · exact hinv
      · next hguard =>
        split
        · exact hinv
        · split
          · next hall =>
            have hguard' :
                (!truthyOpt (get_public_ip st.current_ip svc).current_ip ||
                  !is_valid_ipv4 (((get_public_ip st.current_ip svc).current_ip).getD ""))
                = false := by
              simpa using hguard
            rw [Bool.or_eq_false_iff] at hguard'
            obtain ⟨htr, hv⟩ := hguard'
            cases hcur : (get_public_ip st.current_ip svc).current_ip with
            | none => rw [hcur] at htr; simp [truthyOpt] at htr
            | some s =>
              rw [hcur] at hv
              show cachedInvariant (some s) = true
              simp only [cachedInvariant, Bool.or_eq_true]
              right
              simpa using hv
          · exact hinv

/-- Witness for C8: a truthy malformed cached value (`"not-an-ip"`) is
coerced by validation to a value satisfying the invariant, and the
coercion is flagged for persistence. -/
theorem c8_cached_ip_invariant_witness :
    cachedInvariant (validate_cached_ip (some "not-an-ip")).1 = true ∧
      validate_cached_ip (some "not-an-ip") = (some "0.0.0.0", true) :=
  ⟨c8_cached_ip_invariant.1 (some "not-an-ip") (by decide),
    c8_cached_ip_invariant.2.1 (some "not-an-ip") (by decide)⟩

/-! ### State store (`DDNSClient.save_config`, lines 273-321)

`save_config` serializes `self.config` (with `last_ip` refreshed) to
`config.yaml.tmp`, then `shutil.move`s it over `config.yaml` (same
directory, hence an atomic rename).  On a `PermissionError`/`OSError`
from the write or the move, and on any other exception, the handler
removes the staging file if it exists — itself inside
`try/except OSError: pass` — and re-raises. -/

/-- The error classes `save_config` can surface, matching its `except`
clauses: `PermissionError`, `OSError`, and the `RuntimeError` wrapping
any other exception. -/
inductive SaveErr where
  | permError
  | osError
  | otherError
deriving DecidableEq, Repr

/-- The two files `save_config` touches, by contents (`none` = absent). -/
structure FS where
  canonical : Option String
  tmp : Option String
deriving DecidableEq, Repr

/-- Model of `DDNSClient.save_config` (lines 273-321) over an explicit filesystem:
`content` is the serialized configuration; `writeFail` injects a failure
of the staging write (leaving the staging file in state `partialTmp` —
absent if `open` failed, partial bytes if the dump died midway);
`moveFail` injects a failure of the atomic replace; `removeOk` tells
whether the cleanup `os.remove` itself succeeds (its failure is
swallowed by `except OSError: pass`).  Returns the final filesystem and
the surfaced error, `none` on success. -/
def save_config (fs : FS) (content : String) (writeFail : Option SaveErr)
    (partialTmp : Option String) (moveFail : Option SaveErr) (removeOk : Bool) :
    FS × Option SaveErr :=
  match writeFail with
  | some e =>
    let fs₁ : FS := { fs with tmp := partialTmp }
    (if fs₁.tmp.isSome && removeOk then { fs₁ with tmp := none } else fs₁, some e)
  | none =>
    let fs₁ : FS := { fs with tmp := some content }
    match moveFail with
    | none => ({ canonical := some content, tmp := none }, none)
    | some e => (if removeOk then { fs₁ with tmp := none } else fs₁, some e)

/-- Counterexample to C7 as stated: when the atomic replace fails *and*
the cleanup `os.remove` itself fails (swallowed by
`except OSError: pass`), the staging artifact is left behind — the error
is still surfaced and the canonical file is intact, but the claimed
unconditional removal of the staging artifact does not hold. -/
theorem c7_counterexample :
    save_config ⟨some "old", none⟩ "new" none none (some .osError) false =
      (⟨some "old", some "new"⟩, some .osError) ∧
      (⟨some "old", some "new"⟩ : FS).tmp ≠ none :=
  ⟨rfl, by decide⟩

/-- Claim **C7** (corrected): `save_config` succeeds exactly when both the
staging write and the atomic replace succeed, and then the canonical
file holds the new contents with no staging file left; on any failure
the canonical file is byte-for-byte the previous one (never partial) and
the original error is surfaced to the caller; the staging artifact is
removed whenever the cleanup removal itself succeeds officially
(`removeOk = true`), but a failing removal is swallowed and may leave
the artifact. -/
theorem c7_save_config_atomic (fs : FS) (content : String) (writeFail : Option SaveErr)
    (partialTmp : Option String) (moveFail : Option SaveErr) (removeOk : Bool) :
    ((save_config fs content writeFail partialTmp moveFail removeOk).2 = none ↔
      writeFail = none ∧ moveFail = none) ∧
    ((save_config fs content writeFail partialTmp moveFail removeOk).2 = none →
      (save_config fs content writeFail partialTmp moveFail removeOk).1 =
        ⟨some content, none⟩) ∧
    ((save_config fs content writeFail partialTmp moveFail removeOk).2 ≠ none →
      (save_config fs content writeFail partialTmp moveFail removeOk).1.canonical =
        fs.canonical) ∧
    ((save_config fs content writeFail partialTmp moveFail removeOk).2 =
      match writeFail with
      | some e => some e
      | none => moveFail) ∧
    (removeOk = true →
      (save_config fs content writeFail partialTmp moveFail removeOk).1.tmp = none) := by
  cases writeFail <;> cases moveFail <;> cases partialTmp <;> cases removeOk <;>
    simp [save_config]

/-- Witness for C7: a clean save replaces the canonical contents and
leaves no staging file, even over a stale staging artifact. -/
theorem c7_save_config_atomic_witness :
    (save_config ⟨some "old", some "stale"⟩ "new" none none none true).1 =
      ⟨some "new", none⟩ :=
  (c7_save_config_atomic ⟨some "old", some "stale"⟩ "new" none none none true).2.1 rfl

/-! ### Startup validation and exit codes
(`DDNSClient._validate_config` lines 178-208, `main` lines 702-763)

`_validate_config` raises `ValueError` at the first violation, in source
order: no users; a user with falsy, non-string, or blank-after-strip
username/password; a falsy `schedule`; a `schedule` rejected by
`croniter`; a falsy DDNS `server`; a falsy DDNS `port`.  `main` catches
`ValueError` (and the file/permission/runtime errors) and returns 1; a
termination signal runs `sys.exit(0)` (a `SystemExit` that no handler
catches), and `KeyboardInterrupt` is caught and returns 0. -/

/-- The violation kinds `_validate_config` reports, in check order. -/
inductive ConfigError where
  | noUsers
  | badUser (idx : Nat)
  | missingSchedule
  | badCron
  | missingServer
  | missingPort
deriving DecidableEq, Repr

/-- The per-user checks of the validation loop (lines 188-196): falsy
username or password, or one that is blank after `strip()`.  (The
`isinstance(…, str)` check cannot fire in this model, where loaded
credentials are already strings.) -/
def userBad (u : User) : Bool :=
  !(truthyOpt u.username && truthyOpt u.password) ||
    (pyStrip (u.username.getD "").data).isEmpty ||
    (pyStrip (u.password.getD "").data).isEmpty

/-- First offending user, with its index (the loop raises at the first
violation). -/
def firstBadUser : Nat → List User → Option ConfigError
  | _, [] => none
  | i, u :: us => if userBad u then some (.badUser i) else firstBadUser (i + 1) us

/-- Python truthiness of the configured port (`not self.ddns_config.get('port')`):
absent or `0` is falsy. -/
def truthyNat : Option Nat → Bool
  | none => false
  | some n => n != 0

/-- Model of `DDNSClient._validate_config` (lines 178-208).  `cronOk` is the
environment oracle for `validate_cron_schedule` — it reflects whether
`croniter` accepts the expression (the minimum-interval check inside it
only logs a warning and never fails, lines 146-149). -/
def validate_config (users : List User) (schedule : Option String)
    (cronOk : String → Bool) (server : Option String) (port : Option Nat) :
    Option ConfigError :=
  if users.isEmpty then some .noUsers
  else
    match firstBadUser 0 users with
    | some e => some e
    | none =>
      if !truthyOpt schedule then some .missingSchedule
      else if !cronOk (schedule.getD "") then some .badCron
      else if !truthyOpt server then some .missingServer
      else if !truthyNat port then some .missingPort
      else none

/-- Model of `self.schedule = self.ddns_config.get('schedule', '*/5 * * * *')`
(line 249): an absent `schedule` key silently defaults; a present key
keeps its value, which may be `None` (a YAML null) or any string. -/
def load_schedule (raw : Option (Option String)) : Option String :=
  match raw with
  | none => some "*/5 * * * *"
  | some v => v

/-- How a validated, running process eventually ends. -/
inductive RunEnd where
  | signalShutdown
  | keyboardInterrupt
  | fatalError
deriving DecidableEq, Repr

/-- The exit code `main` (lines 702-763) produces: any startup
validation error is caught and returns 1; with a valid configuration the
process runs until a termination signal (`sys.exit(0)` in
`signal_handler`, propagating as `SystemExit(0)`) or a
`KeyboardInterrupt` (caught, returns 0), while any other escaping
exception returns 1. -/
def main_exit_code (v : Option ConfigError) (endEvent : RunEnd) : Nat :=
  match v with
  | some _ => 1
  | none =>
    match endEvent with
    | .signalShutdown => 0
    | .keyboardInterrupt => 0
    | .fatalError => 1

theorem firstBadUser_isSome (users : List User) :
    ∀ i, (∃ u ∈ users, userBad u = true) → (firstBadUser i users).isSome = true := by
  induction users with
  | nil => intro i h; simp at h
  | cons u us ih =>
    intro i h
    unfold firstBadUser
    by_cases hu : userBad u = true
    · simp [hu]
    · rw [if_neg hu]
      refine ih (i + 1) ?_
      obtain ⟨v, hv, hbad⟩ := h
      rcases List.mem_cons.mp hv with rfl | hv'
      · exact absurd hbad hu
      · exact ⟨v, hv', hbad⟩

/-- Counterexample to C9 as stated: a configuration whose `schedule` key
is entirely absent is claimed to fail validation, but `load_config`
defaults it to `*/5 * * * *` (which `croniter` accepts), so with one
well-formed user and the server fields present the process starts and a
later graceful signal shutdown exits with code 0. -/
theorem c9_counterexample :
    validate_config [⟨some "u", some "p"⟩] (load_schedule none)
        (fun s => s == "*/5 * * * *") (some "api-ipv4.dynu.com") (some 8245) = none ∧
      main_exit_code
        (validate_config [⟨some "u", some "p"⟩] (load_schedule none)
          (fun s => s == "*/5 * * * *") (some "api-ipv4.dynu.com") (some 8245))
        RunEnd.signalShutdown = 0 :=
  ⟨rfl, rfl⟩

/-- Claim **C9** (corrected): startup validation fails — and `main` then exits
with code 1 — for an empty user list, any user with falsy or blank
credentials, a *present but falsy* (null/empty) schedule value, a
schedule `croniter` rejects, or a falsy DDNS server or port; an entirely
*absent* schedule key is instead defaulted to `*/5 * * * *` and does not
fail; and after a successful start a graceful signal shutdown exits with
code 0. -/
theorem c9_startup_validation (users : List User) (schedRaw : Option (Option String))
    (cronOk : String → Bool) (server : Option String) (port : Option Nat)
    (endEvent : RunEnd) :
    (users = [] →
      validate_config users (load_schedule schedRaw) cronOk server port = some .noUsers) ∧
    ((∃ u ∈ users, userBad u = true) →
      (validate_config users (load_schedule schedRaw) cronOk server port).isSome = true) ∧
    (truthyOpt (load_schedule schedRaw) = false →
      (validate_config users (load_schedule schedRaw) cronOk server port).isSome = true) ∧
    (cronOk ((load_schedule schedRaw).getD "") = false →
      (validate_config users (load_schedule schedRaw) cronOk server port).isSome = true) ∧
    (truthyOpt server = false →
      (validate_config users (load_schedule schedRaw) cronOk server port).isSome = true) ∧
    (truthyNat port = false →
      (validate_config users (load_schedule schedRaw) cronOk server port).isSome = true) ∧
    (∀ e, main_exit_code (some e) endEvent = 1) ∧
    (main_exit_code none RunEnd.signalShutdown = 0) ∧
    (schedRaw = none → load_schedule schedRaw = some "*/5 * * * *") := by
  have hbody : ∀ sched : Option String,
      (truthyOpt sched = false →
        (validate_config users sched cronOk server port).isSome = true) ∧
      (cronOk (sched.getD "") = false →
        (validate_config users sched cronOk server port).isSome = true) ∧
      (truthyOpt server = false →
        (validate_config users sched cronOk server port).isSome = true) ∧
      (truthyNat port = false →
        (validate_config users sched cronOk server port).isSome = true) := by
    intro sched
    unfold validate_config
    by_cases hemp : users.isEmpty
    · simp [hemp]
    · rw [if_neg hemp]
      cases hfb : firstBadUser 0 users with
      | some e => simp
      | none =>
        refine ⟨fun h => by simp [h], fun h => ?_, fun h => ?_, fun h => ?_⟩
        · by_cases hs : truthyOpt sched = false
          · simp [hs]
          · simp only [Bool.not_eq_false] at hs
            simp [hs, h]
        · by_cases hs : truthyOpt sched = false
          · simp [hs]
          · simp only [Bool.not_eq_false] at hs
            by_cases hc : cronOk (sched.getD "") = false
            · simp [hs, hc]
            · simp only [Bool.not_eq_false] at hc
              simp [hs, hc, h]
        · by_cases hs : truthyOpt sched = false
          · simp [hs]
          · simp only [Bool.not_eq_false] at hs
            by_cases hc : cronOk (sched.getD "") = false
            · simp [hs, hc]
            · simp only [Bool.not_eq_false] at hc
              by_cases hsrv : truthyOpt server = false
              · simp [hs, hc, hsrv]
              · simp only [Bool.not_eq_false] at hsrv
                simp [hs, hc, hsrv, h]
  refine ⟨?_, ?_, (hbody _).1, (hbody _).2.1, (hbody _).2.2.1, (hbody _).2.2.2,
    fun e => rfl, rfl, ?_⟩
  · rintro rfl
    rfl
  · intro h
    have hne : ¬ users.isEmpty = true := by
      obtain ⟨u, hu, -⟩ := h
      cases users with
      | nil => simp at hu
      | cons a as => simp
    unfold validate_config
    rw [if_neg hne]
    cases hfb : firstBadUser 0 users with
    | some e => simp
    | none =>
      exfalso
      have := firstBadUser_isSome users 0 h
      rw [hfb] at this
      simp at this
  · rintro rfl
    rfl

/-- Witness for C9: an empty user list fails validation and exits with
code 1; a graceful signal shutdown after a successful start exits 0. -/
theorem c9_startup_validation_witness :
    validate_config [] (load_schedule (some (some "*/5 * * * *"))) (fun _ => true)
        (some "api-ipv4.dynu.com") (some 8245) = some .noUsers ∧
      main_exit_code (some .noUsers) RunEnd.signalShutdown = 1 :=
  ⟨(c9_startup_validation [] (some (some "*/5 * * * *")) (fun _ => true)
      (some "api-ipv4.dynu.com") (some 8245) RunEnd.signalShutdown).1 rfl,
    (c9_startup_validation [] (some (some "*/5 * * * *")) (fun _ => true)
      (some "api-ipv4.dynu.com") (some 8245) RunEnd.signalShutdown).2.2.2.2.2.2.1 .noUsers⟩

end DdnsUpdate
